import Mathlib

/-!
Shallow embedding of the spool-tracking core of the
`centauri_spool_manager` Home Assistant integration.

Entity states ("unknown"/"unavailable"/missing) are modelled as `Option`
values (`none` means the reading is absent), numeric readings as exact
rationals, and Python `round` (banker's rounding, half to even) as
`pyRound : ℚ → ℤ`.  Each service handler or entity callback becomes a pure
function from the states it reads to the values it writes.
-/

namespace CentauriSpool

/-- Python built-in `round` to an integer: round half to even. -/
def pyRound (q : ℚ) : ℤ :=
  if q - ⌊q⌋ < 1/2 then ⌊q⌋
  else if (1 : ℚ)/2 < q - ⌊q⌋ then ⌊q⌋ + 1
  else if ⌊q⌋ % 2 = 0 then ⌊q⌋ else ⌊q⌋ + 1

/-- The literal `3.14159265359` used in `_append_print_history`. -/
def coordPi : ℚ := 314159265359 / 100000000000

/-- The IEEE-754 double `math.pi` used in `handle_set_spool_weight`. -/
def mathPi : ℚ := 884279719003555 / 281474976710656

lemma pyRound_intCast (n : ℤ) : pyRound (n : ℚ) = n := by
  simp [pyRound]

lemma pyRound_nonneg {q : ℚ} (h : 0 ≤ q) : 0 ≤ pyRound q := by
  have h0 : 0 ≤ ⌊q⌋ := Int.floor_nonneg.mpr h
  unfold pyRound
  split_ifs <;> omega

lemma pyRound_eq_of_floor_lt {q : ℚ} {n : ℤ} (h1 : ⌊q⌋ = n)
    (h2 : q - n < 1/2) : pyRound q = n := by
  rw [pyRound, h1, if_pos h2]

lemma pyRound_eq_of_floor_gt {q : ℚ} {n : ℤ} (h1 : ⌊q⌋ = n)
    (h2 : (1 : ℚ)/2 < q - n) : pyRound q = n + 1 := by
  rw [pyRound, h1, if_neg (by linarith), if_pos h2]

lemma pyRound_neg_of_le_neg_one {q : ℚ} (h : q ≤ -1) : pyRound q < 0 := by
  have hfle : (⌊q⌋ : ℚ) ≤ q := Int.floor_le q
  have hf1 : ⌊q⌋ ≤ -1 := by
    have h2 := Int.floor_mono h
    rwa [show ((-1 : ℚ)) = ((-1 : ℤ) : ℚ) by norm_num, Int.floor_intCast] at h2
  unfold pyRound
  split_ifs with h1 h2 h3
  · omega
  · have hlt : (⌊q⌋ : ℚ) < -3/2 := by linarith
    have : (⌊q⌋ : ℚ) < ((-2 : ℤ) : ℚ) + 1 := by push_cast; linarith
    have : ⌊q⌋ ≤ -2 := by exact_mod_cast Int.lt_add_one_iff.mp (by exact_mod_cast this)
    omega
  · omega
  · have heq : (⌊q⌋ : ℚ) = q - 1/2 := by linarith
    have : (⌊q⌋ : ℚ) < ((-2 : ℤ) : ℚ) + 1 := by push_cast; linarith
    have : ⌊q⌋ ≤ -2 := by exact_mod_cast Int.lt_add_one_iff.mp (by exact_mod_cast this)
    omega

/-- One record of a per-spool print history list, as built by
`_append_print_history` (field names follow the JSON keys). -/
structure HistoryEntry where
  date : String
  spool : String
  file : String
  length_mm : ℚ
  weight_g : ℚ
deriving DecidableEq, Repr

/-- Weight-from-volume computation of `_append_print_history`
(coordinator.py): `volume_mm3 = 3.14159265359 * radius_mm**2 *
extruded_length`, `volume_cm3 = volume_mm3 / 1000`,
`weight_g = volume_cm3 * density`. -/
def appendWeightG (diameter density extrudedLength : ℚ) : ℚ :=
  let radius_mm := diameter / 2
  let volume_mm3 := coordPi * radius_mm ^ 2 * extrudedLength
  let volume_cm3 := volume_mm3 / 1000
  volume_cm3 * density

/-- History truncation step of `_append_print_history`:
`entries.append(entry)` followed by `entries = entries[-10:]`. -/
def appendPrintHistory (entries : List HistoryEntry) (entry : HistoryEntry) :
    List HistoryEntry :=
  let appended := entries ++ [entry]
  appended.drop (appended.length - 10)

/-- Values that `_handle_print_end` writes back to the active spool
(`none` means the corresponding `number.set_value` call is not made). -/
structure PrintEndWrites where
  usedLength : Option ℚ
  lastPrintLength : Option ℚ
deriving DecidableEq, Repr

/-- The `tracking → idle` transition `_handle_print_end`
(coordinator.py).  Inputs are the coordinator flag `_tracking_active`,
the extrusion sensor state (`none` = missing/unknown/unavailable), the
baseline `_print_start_extrusion`, the `_active_spool` value (`none` =
Python `None`), and the used-length entity state.  Mirrors the source:
`extruded_length = round(final_extrusion - self._print_start_extrusion)`
and `new_used = round(current_used + extruded_length)` with no clamping. -/
def handlePrintEnd (trackingActive : Bool) (extrusionState : Option ℚ)
    (printStartExtrusion : ℚ) (activeSpool : Option String)
    (usedState : Option ℚ) : PrintEndWrites :=
  if !trackingActive then ⟨none, none⟩ else
  match extrusionState with
  | none => ⟨none, none⟩
  | some finalExtrusion =>
    let extrudedLength : ℤ := pyRound (finalExtrusion - printStartExtrusion)
    match activeSpool with
    | none => ⟨none, none⟩
    | some activeName =>
      if activeName = "" ∨ activeName = "None" then ⟨none, none⟩
      else
        match usedState with
        | none => ⟨none, none⟩
        | some currentUsed =>
          let newUsed : ℤ := pyRound (currentUsed + (extrudedLength : ℚ))
          ⟨some (newUsed : ℚ), some (extrudedLength : ℚ)⟩

/-- Spool state read and written by `handle_undo_last_print`
(last-print-length and used-length entities; `none` =
missing/unknown/unavailable). -/
structure UndoLastPrintState where
  lastPrintLength : Option ℚ
  usedLength : Option ℚ
deriving DecidableEq, Repr

/-- Service handler `handle_undo_last_print` (`__init__.py`):
`new_used = round(max(0, current_used - last_print_length))`, then the
used length is set to `new_used` and the last-print length reset to 0.
When either reading is unavailable nothing is written. -/
def handleUndoLastPrint (s : UndoLastPrintState) : UndoLastPrintState :=
  match s.lastPrintLength with
  | none => s
  | some lastPrintLength =>
    match s.usedLength with
    | none => s
    | some currentUsed =>
      let newUsed : ℤ := pyRound (max 0 (currentUsed - lastPrintLength))
      { lastPrintLength := some 0, usedLength := some (newUsed : ℚ) }

/-- State of the stored history payload as seen by
`handle_undo_history_entry`: the entity state can be missing (or
`unknown`/`unavailable`/empty), fail `json.loads`, or decode to a list. -/
inductive HistoryPayload where
  | missing
  | invalid
  | parsed (entries : List HistoryEntry)

/-- Values `handle_undo_history_entry` writes back (`none` = the
corresponding service call is not made). -/
structure UndoHistoryWrites where
  history : Option (List HistoryEntry)
  usedLength : Option ℚ
deriving DecidableEq, Repr

/-- Service handler `handle_undo_history_entry` (`__init__.py`): bails
out (writing nothing) when the payload is missing, unparseable, the list
is empty, or the index is out of `[0, len)`; otherwise pops the entry at
`entry_index`, writes `round(max(0, current_used - length_mm))` when the
used-length reading is available, and persists the shortened history. -/
def handleUndoHistoryEntry (payload : HistoryPayload) (usedState : Option ℚ)
    (entryIndex : ℤ) : UndoHistoryWrites :=
  match payload with
  | .missing => ⟨none, none⟩
  | .invalid => ⟨none, none⟩
  | .parsed entries =>
    if entries.isEmpty then ⟨none, none⟩
    else if entryIndex < 0 ∨ (entries.length : ℤ) ≤ entryIndex then ⟨none, none⟩
    else
      match entries.get? entryIndex.toNat with
      | none => ⟨none, none⟩
      | some entry =>
        let remaining := entries.eraseIdx entryIndex.toNat
        let newUsed : Option ℚ :=
          usedState.map
            (fun currentUsed => ((pyRound (max 0 (currentUsed - entry.length_mm)) : ℤ) : ℚ))
        ⟨some remaining, newUsed⟩

/-- Length-from-weight computation of `handle_set_spool_weight`
(`__init__.py`): `volume_cm3 = weight_grams / density`,
`volume_mm3 = volume_cm3 * 1000`,
`length_mm = volume_mm3 / (math.pi * radius_mm**2)`. -/
def setSpoolWeightLengthMm (weightGrams density diameter : ℚ) : ℚ :=
  let radius_mm := diameter / 2
  let volume_cm3 := weightGrams / density
  let volume_mm3 := volume_cm3 * 1000
  volume_mm3 / (mathPi * radius_mm ^ 2)

/-- Values `handle_set_spool_weight` writes (`none` = call not made). -/
structure SetWeightWrites where
  initialLength : Option ℚ
  usedLength : Option ℚ
deriving DecidableEq, Repr

/-- Service handler `handle_set_spool_weight` (`__init__.py`).  The outer
`Option` of each reading is entity existence (`if density_state and
diameter_state:`); the inner `Option` is the parsed value, with
`unknown`/`unavailable` falling back to defaults 1.24 and 1.75.  The
handler reads no lock switch: it writes `round(length_mm)` to the initial
length and resets the used length to 0 unconditionally. -/
def handleSetSpoolWeight (densityState diameterState : Option (Option ℚ))
    (weightGrams : ℚ) : SetWeightWrites :=
  match densityState, diameterState with
  | some densityReading, some diameterReading =>
    let density := densityReading.getD (124/100)
    let diameter := diameterReading.getD (7/4)
    let length_mm := setSpoolWeightLengthMm weightGrams density diameter
    ⟨some ((pyRound length_mm : ℤ) : ℚ), some 0⟩
  | _, _ => ⟨none, none⟩

/-- Lock-switch check shared by the entity-level setters:
`if lock_state and lock_state.state == "on": raise ValueError(...)`. -/
def lockIsOn (lockState : Option String) : Bool :=
  match lockState with
  | some s => s == "on"
  | none => false

/-- Message raised by the entity setters when the spool is locked. -/
def lockedMessage : String := "is locked. Unlock it before making changes."

/-- Entity callback `SpoolNameText.async_set_value` (text.py): raises
when the spool lock switch is on, otherwise writes the new name. -/
def spoolNameSetValue (lockState : Option String) (value : String) :
    Except String String :=
  if lockIsOn lockState then .error lockedMessage else .ok value

/-- Entity callback `SpoolMaterialSelect.async_select_option`
(select.py): raises when the spool lock switch is on, otherwise selects
the material. -/
def spoolMaterialSelectOption (lockState : Option String) (chosen : String) :
    Except String String :=
  if lockIsOn lockState then .error lockedMessage else .ok chosen

/-- Entity callback `SpoolSetWeightNumber.async_set_native_value`
(number.py): raises when the spool lock switch is on, otherwise accepts
the weight (and then invokes the `set_spool_weight` service). -/
def spoolSetWeightNumberValue (lockState : Option String) (value : ℚ) :
    Except String ℚ :=
  if lockIsOn lockState then .error lockedMessage else .ok value

/-- Sample history record used by concrete witnesses. -/
def sampleEntry (k : ℚ) : HistoryEntry :=
  ⟨"2024-01-01T00:00:00", "Spool 1", "part.gcode", k, k⟩

/-- Two-element sample history list. -/
def sampleTwo : List HistoryEntry := [sampleEntry 500, sampleEntry 200]

/-- Ten-element sample history list. -/
def sampleTen : List HistoryEntry :=
  [sampleEntry 1, sampleEntry 2, sampleEntry 3, sampleEntry 4, sampleEntry 5,
   sampleEntry 6, sampleEntry 7, sampleEntry 8, sampleEntry 9, sampleEntry 10]

lemma pyRound_eq_intCast {q : ℚ} {n : ℤ} (h : q = (n : ℚ)) : pyRound q = n :=
  h ▸ pyRound_intCast n

lemma handleUndoHistoryEntry_parsed_valid (entries : List HistoryEntry)
    (usedState : Option ℚ) (i : ℕ) (h : i < entries.length) :
    handleUndoHistoryEntry (.parsed entries) usedState (i : ℤ) =
      ⟨some (entries.take i ++ entries.drop (i + 1)),
       usedState.map
         (fun currentUsed =>
           ((pyRound (max 0 (currentUsed - (entries.get ⟨i, h⟩).length_mm)) : ℤ) : ℚ))⟩ := by
  have hne : entries.isEmpty = false := by
    cases entries with
    | nil => simp at h
    | cons a l => rfl
  have hcond : ¬((i : ℤ) < 0 ∨ (entries.length : ℤ) ≤ (i : ℤ)) := by
    push_neg
    exact ⟨by positivity, by exact_mod_cast h⟩
  have htn : ((i : ℤ)).toNat = i := Int.toNat_natCast i
  simp only [handleUndoHistoryEntry, hne, Bool.false_eq_true, if_false, if_neg hcond,
    htn, List.get?_eq_get h, List.eraseIdx_eq_take_drop_succ]

end CentauriSpool

namespace CentauriSpool

/-- Claim C1, counterexample: with tracking active, baseline 100, final
extrusion reading 50 and current used length 200, `_handle_print_end`
applies the value −50 (not 0) to the spool: the used length is set to
150 < 200, so the applied value is not clamped at zero and the used
length decreases. -/
theorem C1_counterexample :
    handlePrintEnd true (some 50) 100 (some "Spool 1") (some 200) =
      ⟨some 150, some (-50)⟩ ∧
    ((-50 : ℚ) ≠ 0) ∧ ((150 : ℚ) < 200) := by
  have h1 : pyRound ((50 : ℚ) - 100) = -50 := pyRound_eq_intCast (by norm_num)
  have h2 : pyRound ((200 : ℚ) + -50) = 150 := pyRound_eq_intCast (by norm_num)
  refine ⟨?_, by norm_num, by norm_num⟩
  simp [handlePrintEnd, h1, h2]

/-- Claim C1 (amended): on the `tracking → idle` transition the value
applied to the active spool's used length is `round(final − baseline)`
(banker's rounding) with no clamping at zero, and the used length is set
to `round(used + delta)`; whenever `final ≤ baseline − 1` the applied
value is strictly negative. -/
theorem C1_amended (finalExtrusion baseline currentUsed : ℚ) :
    (handlePrintEnd true (some finalExtrusion) baseline (some "Spool 1")
        (some currentUsed) =
      ⟨some ((pyRound (currentUsed + (pyRound (finalExtrusion - baseline) : ℚ)) : ℤ) : ℚ),
       some ((pyRound (finalExtrusion - baseline) : ℤ) : ℚ)⟩) ∧
    (finalExtrusion ≤ baseline - 1 → pyRound (finalExtrusion - baseline) < 0) := by
  constructor
  · simp [handlePrintEnd]
  · intro hle
    exact pyRound_neg_of_le_neg_one (by linarith)

/-- Claim C1 amended, witness at final = 50, baseline = 100, used = 200. -/
theorem C1_amended_witness :
    (handlePrintEnd true (some 50) 100 (some "Spool 1") (some 200) =
      ⟨some ((pyRound ((200 : ℚ) + (pyRound ((50 : ℚ) - 100) : ℚ)) : ℤ) : ℚ),
       some ((pyRound ((50 : ℚ) - 100) : ℤ) : ℚ)⟩) ∧
    pyRound ((50 : ℚ) - 100) < 0 :=
  ⟨(C1_amended 50 100 200).1, (C1_amended 50 100 200).2 (by norm_num)⟩

/-- Claim C2, counterexample: the weight produced by the history-append
formula for length 1000 mm, diameter 1.75 mm, density 1.24 g/cm³ is
477207924080321/160000000000000 ≈ 2.9825 g, which is not within 0.1 of
the claimed 2.366 g. -/
theorem C2_counterexample :
    appendWeightG (7/4) (31/25) 1000 = 477207924080321/160000000000000 ∧
    ¬ |appendWeightG (7/4) (31/25) 1000 - 2366/1000| ≤ 1/10 := by
  have hval : appendWeightG (7/4) (31/25) 1000 = 477207924080321/160000000000000 := by
    norm_num [appendWeightG, coordPi]
  refine ⟨hval, ?_⟩
  rw [hval, abs_le]
  push_neg
  intro h
  norm_num

/-- Claim C2 (amended): the weight computed by the history-append
weight-from-volume formula for length = 1000 mm, diameter = 1.75 mm,
density = 1.24 g/cm³ is approximately 2.983 g (within 0.001). -/
theorem C2_amended : |appendWeightG (7/4) (31/25) 1000 - 2983/1000| < 1/1000 := by
  rw [abs_lt]
  constructor <;> norm_num [appendWeightG, coordPi]

/-- Claim C3: the history append truncates to the 10 most recent
entries: the result never exceeds 10 entries, it is a suffix of the
appended list (the most recent records), and appending to a 10-entry
history drops exactly the oldest entry. -/
theorem C3_append_truncates (entries : List HistoryEntry) (entry : HistoryEntry) :
    (appendPrintHistory entries entry).length ≤ 10 ∧
    List.IsSuffix (appendPrintHistory entries entry) (entries ++ [entry]) ∧
    (entries.length = 10 →
      appendPrintHistory entries entry = entries.drop 1 ++ [entry]) := by
  refine ⟨?_, ?_, ?_⟩
  · simp only [appendPrintHistory, List.length_drop]
    simp
    omega
  · simp only [appendPrintHistory]
    exact List.drop_suffix _ _
  · intro h10
    simp only [appendPrintHistory, List.length_append, List.length_singleton, h10]
    rw [List.drop_append_of_le_length (by omega)]

/-- Claim C3, witness: appending an 11th entry to a 10-entry history
keeps 10 entries and drops the oldest. -/
theorem C3_append_truncates_witness :
    (appendPrintHistory sampleTen (sampleEntry 11)).length ≤ 10 ∧
    List.IsSuffix (appendPrintHistory sampleTen (sampleEntry 11))
      (sampleTen ++ [sampleEntry 11]) ∧
    appendPrintHistory sampleTen (sampleEntry 11) = sampleTen.drop 1 ++ [sampleEntry 11] :=
  ⟨(C3_append_truncates sampleTen (sampleEntry 11)).1,
   (C3_append_truncates sampleTen (sampleEntry 11)).2.1,
   (C3_append_truncates sampleTen (sampleEntry 11)).2.2 (by decide)⟩

/-- Claim C4: undoing at a valid zero-based index (oldest = 0) removes
exactly that entry (the result is the prefix before it followed by the
suffix after it, in order) and sets the used length to
`round(max(0, used − length_mm))` of the removed entry. -/
theorem C4_undo_valid_index (entries : List HistoryEntry) (i : ℕ)
    (h : i < entries.length) (currentUsed : ℚ) :
    handleUndoHistoryEntry (.parsed entries) (some currentUsed) (i : ℤ) =
      ⟨some (entries.take i ++ entries.drop (i + 1)),
       some ((pyRound (max 0 (currentUsed - (entries.get ⟨i, h⟩).length_mm)) : ℤ) : ℚ)⟩ := by
  rw [handleUndoHistoryEntry_parsed_valid entries (some currentUsed) i h]
  rfl

/-- Claim C4, witness: undoing index 1 of a two-entry history with used
length 800 removes the second record (length 200) and sets the used
length to 600. -/
theorem C4_undo_valid_index_witness :
    handleUndoHistoryEntry (.parsed sampleTwo) (some 800) ((1 : ℕ) : ℤ) =
      ⟨some (sampleTwo.take 1 ++ sampleTwo.drop 2), some 600⟩ := by
  rw [C4_undo_valid_index sampleTwo 1 (by decide) 800]
  have hget : (sampleTwo.get ⟨1, by decide⟩).length_mm = 200 := rfl
  have hmax : max (0 : ℚ) (800 - 200) = ((600 : ℤ) : ℚ) := by norm_num
  rw [hget, pyRound_eq_intCast hmax]
  norm_num

/-- Claim C5: with an out-of-range index, an unparseable history
payload, or a missing history reading, `handle_undo_history_entry`
writes nothing: neither the history nor the used length is updated, and
the handler returns normally. -/
theorem C5_undo_invalid_noop (usedState : Option ℚ) (entryIndex : ℤ)
    (entries : List HistoryEntry) :
    ((entryIndex < 0 ∨ (entries.length : ℤ) ≤ entryIndex) →
        handleUndoHistoryEntry (.parsed entries) usedState entryIndex = ⟨none, none⟩) ∧
    handleUndoHistoryEntry .invalid usedState entryIndex = ⟨none, none⟩ ∧
    handleUndoHistoryEntry .missing usedState entryIndex = ⟨none, none⟩ := by
  refine ⟨?_, rfl, rfl⟩
  intro hrange
  simp only [handleUndoHistoryEntry]
  by_cases he : entries.isEmpty
  · rw [if_pos he]
  · rw [if_neg he, if_pos hrange]

/-- Claim C5, witness: index 5 on a two-entry history, an invalid
payload, and a missing payload each leave every value unwritten. -/
theorem C5_undo_invalid_noop_witness :
    handleUndoHistoryEntry (.parsed sampleTwo) (some 100) 5 = ⟨none, none⟩ ∧
    handleUndoHistoryEntry .invalid (some 100) 5 = ⟨none, none⟩ ∧
    handleUndoHistoryEntry .missing (some 100) 5 = ⟨none, none⟩ :=
  ⟨(C5_undo_invalid_noop (some 100) 5 sampleTwo).1 (by decide),
   (C5_undo_invalid_noop (some 100) 5 sampleTwo).2.1,
   (C5_undo_invalid_noop (some 100) 5 sampleTwo).2.2⟩

/-- Claim C6, counterexample: for baseline 0 and final reading 0.4
(so 0 ≤ baseline ≤ final) with pre-print used length 0.4, the delta the
code applies is round(0.4) = 0 ≠ final − baseline, and the used length
is set to round(0.4 + 0) = 0, strictly below its pre-print value 0.4. -/
theorem C6_counterexample :
    handlePrintEnd true (some (2/5)) 0 (some "Spool 1") (some (2/5)) =
      ⟨some 0, some 0⟩ ∧
    ((0 : ℚ) ≠ (2/5 : ℚ) - 0) ∧ ((0 : ℚ) < 2/5) := by
  have h1 : pyRound (2/5 : ℚ) = 0 :=
    pyRound_eq_of_floor_lt (by norm_num) (by norm_num)
  refine ⟨?_, by norm_num, by norm_num⟩
  simp [handlePrintEnd, h1]

/-- Claim C6 (amended): for whole-number extrusion readings with
0 ≤ baseline ≤ final and a whole-number pre-print used length, the
applied delta is exactly final − baseline and the resulting used length
used + (final − baseline) is at least the pre-print value. -/
theorem C6_amended (b f u : ℤ) (_hb : 0 ≤ b) (hbf : b ≤ f) :
    handlePrintEnd true (some (f : ℚ)) (b : ℚ) (some "Spool 1") (some (u : ℚ)) =
      ⟨some ((u + (f - b) : ℤ) : ℚ), some ((f - b : ℤ) : ℚ)⟩ ∧
    (u : ℚ) ≤ ((u + (f - b) : ℤ) : ℚ) := by
  have hd : pyRound ((f : ℚ) - (b : ℚ)) = f - b :=
    pyRound_eq_intCast (by push_cast; ring)
  have hn : pyRound ((u : ℚ) + ((f : ℚ) - (b : ℚ))) = u + (f - b) :=
    pyRound_eq_intCast (by push_cast; ring)
  have hfb : (b : ℚ) ≤ (f : ℚ) := by exact_mod_cast hbf
  constructor
  · simp [handlePrintEnd, hd]
    rw [hn]
    push_cast
    ring
  · push_cast
    linarith

/-- Claim C6 amended, witness at baseline 0, final 3, used 5. -/
theorem C6_amended_witness :
    handlePrintEnd true (some ((3 : ℤ) : ℚ)) ((0 : ℤ) : ℚ) (some "Spool 1")
        (some ((5 : ℤ) : ℚ)) =
      ⟨some ((5 + (3 - 0) : ℤ) : ℚ), some ((3 - 0 : ℤ) : ℚ)⟩ ∧
    ((5 : ℤ) : ℚ) ≤ ((5 + (3 - 0) : ℤ) : ℚ) :=
  C6_amended 0 3 5 (by decide) (by decide)

/-- Claim C7, counterexample: the `set_spool_weight` service handler
reads no lock switch at all, so invoking it directly on a locked spool
still rewrites the spool: with density 1 g/cm³, diameter 2 mm and a
1 g target it writes initial length 318 mm and resets the used length
to 0, raising no error. -/
theorem C7_counterexample :
    (handleSetSpoolWeight (some (some 1)) (some (some 2)) 1).initialLength = some 318 ∧
    (handleSetSpoolWeight (some (some 1)) (some (some 2)) 1).usedLength = some 0 := by
  have hfloor : ⌊setSpoolWeightLengthMm 1 1 2⌋ = 318 := by
    rw [Int.floor_eq_iff]
    constructor <;> norm_num [setSpoolWeightLengthMm, mathPi]
  have hr : pyRound (setSpoolWeightLengthMm 1 1 2) = 318 := by
    apply pyRound_eq_of_floor_lt hfloor
    norm_num [setSpoolWeightLengthMm, mathPi]
  constructor
  · simp [handleSetSpoolWeight, hr]
  · simp [handleSetSpoolWeight]

/-- Claim C7 (amended): the entity-level setters for a spool's name,
material, and weight all raise a validation error when the spool's lock
switch is on, writing nothing; but the `set_spool_weight` service
handler itself performs no lock check, so whenever the density and
diameter entities exist it writes the computed initial length and resets
the used length to 0 regardless of any lock. -/
theorem C7_amended :
    (∀ v : String, spoolNameSetValue (some "on") v = .error lockedMessage) ∧
    (∀ c : String, spoolMaterialSelectOption (some "on") c = .error lockedMessage) ∧
    (∀ w : ℚ, spoolSetWeightNumberValue (some "on") w = .error lockedMessage) ∧
    (∀ (densityReading diameterReading : Option ℚ) (w : ℚ),
      handleSetSpoolWeight (some densityReading) (some diameterReading) w =
        ⟨some ((pyRound (setSpoolWeightLengthMm w (densityReading.getD (124/100))
            (diameterReading.getD (7/4))) : ℤ) : ℚ), some 0⟩) := by
  refine ⟨fun v => rfl, fun c => rfl, fun w => rfl, fun dr dir w => rfl⟩

/-- Claim C8: round-tripping 1000 mm of filament through the
history-append weight formula (its 3.14159265359 constant) and the
`set_spool_weight` inverse (its `math.pi` constant) recovers exactly
1000 mm after the rounding applied to the stored length. -/
theorem C8_roundtrip :
    pyRound (setSpoolWeightLengthMm (appendWeightG (7/4) (31/25) 1000) (31/25) (7/4)) =
      1000 := by
  apply pyRound_eq_of_floor_lt
  · rw [Int.floor_eq_iff]
    constructor <;>
      norm_num [setSpoolWeightLengthMm, appendWeightG, coordPi, mathPi]
  · norm_num [setSpoolWeightLengthMm, appendWeightG, coordPi, mathPi]

/-- Claim C9: `handle_undo_last_print` is idempotent: a first invocation
subtracts the recorded last-print length (clamped at zero) and resets
that record to 0, so a second invocation subtracts 0 from an already
whole, non-negative total and changes nothing. -/
theorem C9_undoLastPrint_idempotent (s : UndoLastPrintState) :
    handleUndoLastPrint (handleUndoLastPrint s) = handleUndoLastPrint s := by
  rcases s with ⟨lp, u⟩
  cases lp with
  | none => rfl
  | some lastPrintLength =>
    cases u with
    | none => rfl
    | some currentUsed =>
      simp only [handleUndoLastPrint]
      have hn0 : 0 ≤ pyRound (max 0 (currentUsed - lastPrintLength)) :=
        pyRound_nonneg (le_max_left _ _)
      have h1 : max (0 : ℚ) ((pyRound (max 0 (currentUsed - lastPrintLength)) : ℤ) : ℚ) =
          ((pyRound (max 0 (currentUsed - lastPrintLength)) : ℤ) : ℚ) :=
        max_eq_right (by exact_mod_cast hn0)
      simp [h1, pyRound_intCast]

/-- Claim C10: when the used-length reading is missing or unavailable,
undoing a valid history index still removes the entry and persists the
shortened history while making no used-length write at all: the reversal
of the consumption total is silently lost. -/
theorem C10_undo_not_atomic (entries : List HistoryEntry) (i : ℕ)
    (h : i < entries.length) :
    handleUndoHistoryEntry (.parsed entries) none (i : ℤ) =
      ⟨some (entries.take i ++ entries.drop (i + 1)), none⟩ := by
  rw [handleUndoHistoryEntry_parsed_valid entries none i h]
  rfl

/-- Claim C10, witness: undoing index 0 of a two-entry history with the
used-length reading unavailable persists the one-entry remainder and
writes no used length. -/
theorem C10_undo_not_atomic_witness :
    handleUndoHistoryEntry (.parsed sampleTwo) none ((0 : ℕ) : ℤ) =
      ⟨some (sampleTwo.take 0 ++ sampleTwo.drop 1), none⟩ :=
  C10_undo_not_atomic sampleTwo 0 (by decide)

end CentauriSpool
